import Mathlib

/-!
Shallow embedding of the ATS telemetry integration (gundi-integration-ats-v2):
the vendor response parser, the per-device time-offset correction and
nearest-date lookup, the file-staging actions and the pull pipeline, together
with theorems settling the specification claims about them.

Conventions of the embedding:
* Python `datetime` values are modelled at one-second resolution: a naive
  timestamp or a transmission date is an `Int` counting seconds.  Python's
  `timedelta.days` attribute is floor division of the total length by 86400
  seconds (`Int.fdiv`), which is what `closest_transmission` compares.
* Python exceptions are modelled with `Except`: a function that can raise
  returns `Except E A`, and an uncaught exception is the `.error` branch.
* pydantic models become structures carrying the parsed field values; raw
  vendor rows carry `Option` fields so that the parse-time validation
  (missing field, unparseable timestamp, out-of-range coordinate) is explicit.
-/

namespace ATS

/-- Python `abs((x - y).days)` for two datetimes `x`, `y` given in seconds:
`timedelta.days` is floor division of the signed difference by 86400. -/

def days_abs (x y : Int) : Int := |Int.fdiv (x - y) 86400|

/-- The pydantic `TransmissionsResponse` model of `client.py` (field names as in
the source; `DateSent`, `CollarSerialNum`, `GmtOffset` are the vendor aliases
of `date_sent`, `collar_serial_num`, `gmt_offset`).  Dates are seconds, numeric
vendor extras are kept at the source's types, unconstrained strings stay
strings. -/

structure TransmissionsResponse where
  date_sent : Int
  collar_serial_num : String
  number_fixes : Option Int
  batt_voltage : Option Rat
  mortality : Option String
  break_off : Option String
  sat_errors : Option String
  year_base : Option String
  day_base : Option String
  gmt_offset : Option Int
  low_batt_voltage : Option Bool
deriving DecidableEq

/-- Shorthand for a transmission carrying only a date and a device serial, all
optional vendor fields absent. -/

def mkTrans (d : Int) (serial : String) : TransmissionsResponse :=
  ⟨d, serial, none, none, none, none, none, none, none, none, none⟩

/-- The list `[t.DateSent for t in transmissions]` of `closest_transmission`. -/

def trans_dates (transmissions : List TransmissionsResponse) : List Int :=
  transmissions.map (fun t => t.date_sent)

/-- Python's `sorted` applied to the date list (ascending, stable). -/

def sorted_dates (transmissions : List TransmissionsResponse) : List Int :=
  List.insertionSort (fun a b => a ≤ b) (trans_dates transmissions)

/-- The source's `[t for t in transmissions if t.DateSent == date][0]`: first
transmission in input order carrying the given date (`none` models the
`IndexError` when no transmission has that date, which never fires because the
date always comes from the list itself). -/

def find_by_date (transmissions : List TransmissionsResponse) (d : Int) :
    Option TransmissionsResponse :=
  transmissions.find? (fun t => t.date_sent == d)

/-- The `for date in sorted_list` loop of `closest_transmission`: scan the
ascending dates; at the first `date >= test_date` return the winner of the
`abs((date - test_date).days) < abs((previous_date - test_date).days)`
comparison; otherwise advance `previous_date`.  `none` means the loop finished
without returning. -/

def scan_dates (test_date : Int) : List Int → Int → Option Int
  | [], _ => none
  | date :: rest, previous_date =>
    if test_date ≤ date then
      some (if days_abs date test_date < days_abs previous_date test_date
            then date else previous_date)
    else
      scan_dates test_date rest date

/-- Source `closest_transmission(transmissions, test_date)` of `client.py`: sort the
dates, initialise `previous_date = sorted_list[-1]`, run the scan, and fall
back to the transmission with the maximum date when the scan finds no date at
or after `test_date`.  `none` models the `IndexError` raised by
`sorted_list[-1]` on an empty transmission list. -/

def closest_transmission (transmissions : List TransmissionsResponse)
    (test_date : Int) : Option TransmissionsResponse :=
  match (sorted_dates transmissions).getLast? with
  | none => none
  | some last =>
    match scan_dates test_date (sorted_dates transmissions) last with
    | some d => find_by_date transmissions d
    | none => find_by_date transmissions last

/-- One step of the algorithm as the specification words it, parameterised by
the distance function: the first sorted date `d ≥ target` is compared against
`previousDate`, which at that point is the largest date `< target` when the
scan advanced at least once and the initial value (the maximum date)
otherwise; `none` when no date is `≥ target`. -/

def spec_pick (dist : Int → Int → Int) (target : Int) (dates : List Int)
    (init : Int) : Option Int :=
  match dates.find? (fun d => decide (target ≤ d)) with
  | some d =>
    let previous := ((dates.filter (fun x => decide (x < target))).getLast?).getD init
    some (if dist d target < dist previous target then d else previous)
  | none => none

/-- The `findNearestTransmission` algorithm exactly as claim C1 words it: ascending sorted
dates, `previousDate` initialised to the maximum, and the exact distance
comparison `|d - targetDate| < |previousDate - targetDate|`; when no date is
`≥ targetDate`, the transmission with the maximum date. -/

def findNearestTransmission (transmissions : List TransmissionsResponse)
    (target : Int) : Option TransmissionsResponse :=
  match (sorted_dates transmissions).getLast? with
  | none => none
  | some mx =>
    match spec_pick (fun a b => |a - b|) target (sorted_dates transmissions) mx with
    | some d => find_by_date transmissions d
    | none => find_by_date transmissions mx

/-- The same algorithm with the distance the source actually compares:
`abs((d - target).days)`, whole days by floor division. -/

def findNearestTransmission_days (transmissions : List TransmissionsResponse)
    (target : Int) : Option TransmissionsResponse :=
  match (sorted_dates transmissions).getLast? with
  | none => none
  | some mx =>
    match spec_pick days_abs target (sorted_dates transmissions) mx with
    | some d => find_by_date transmissions d
    | none => find_by_date transmissions mx

/-- The date predicates of the nearest-date claims: smallest date at or after
the target. -/

def isSmallestGE (l : List Int) (t x : Int) : Prop :=
  x ∈ l ∧ t ≤ x ∧ ∀ y ∈ l, t ≤ y → x ≤ y

/-- Largest date strictly before the target. -/

def isLargestLT (l : List Int) (t x : Int) : Prop :=
  x ∈ l ∧ x < t ∧ ∀ y ∈ l, y < t → y ≤ x

/-- Maximum of a date list. -/

def isMaxOf (l : List Int) (x : Int) : Prop := x ∈ l ∧ ∀ y ∈ l, y ≤ x

/-- Minimum of a date list. -/

def isMinOf (l : List Int) (x : Int) : Prop := x ∈ l ∧ ∀ y ∈ l, x ≤ y

instance decIsSmallestGE (l : List Int) (t x : Int) : Decidable (isSmallestGE l t x) := by
  unfold isSmallestGE; infer_instance

instance decIsLargestLT (l : List Int) (t x : Int) : Decidable (isLargestLT l t x) := by
  unfold isLargestLT; infer_instance

instance decIsMaxOf (l : List Int) (x : Int) : Decidable (isMaxOf l x) := by
  unfold isMaxOf; infer_instance

instance decIsMinOf (l : List Int) (x : Int) : Decidable (isMinOf l x) := by
  unfold isMinOf; infer_instance

/-- Claim C1 (counterexample): with transmissions dated 0s and 233280s (2.7
days) and target 103680s (1.2 days), `closest_transmission` compares the
truncated day distances 1 < 2 and returns the transmission dated 233280,
while the claimed exact comparison |233280-103680| < |0-103680| is false and
the claimed algorithm returns the transmission dated 0. -/

def dict_get? (d : List (String × Option Int)) (k : String) : Option (Option Int) :=
  (d.find? (fun p => p.1 == k)).map (fun p => p.2)

/-- Python `d.setdefault(k, v)`: insert only when the key is absent. -/

def dict_setdefault (d : List (String × Option Int)) (k : String) (v : Option Int) :
    List (String × Option Int) :=
  if d.any (fun p => p.1 == k) then d else d ++ [(k, v)]

/-- Python `d.get(k, 0)` as used by `action_process_observations`: the stored
value — possibly `None` — when the key is present, the integer 0 otherwise. -/

def py_dict_get_zero (d : List (String × Option Int)) (k : String) : Option Int :=
  match dict_get? d k with
  | some v => v
  | none => some 0

/-- Source `extract_gmt_offsets(transmissions, integration_id)` of `handlers.py`: on
a falsy (empty) transmission list log two warnings and return the empty dict;
otherwise accumulate `setdefault(collar_serial_num, gmt_offset)` over the
transmissions in input order. -/

def extract_gmt_offsets (transmissions : List TransmissionsResponse)
    (integration_id : String) : List (String × Option Int) :=
  match transmissions with
  | [] => []
  | _ :: _ =>
    transmissions.foldl
      (fun accumulator item =>
        dict_setdefault accumulator item.collar_serial_num item.gmt_offset) []

inductive PyError
  | typeError
  | valueError
deriving DecidableEq

/-- A Python `datetime`: the naive wall-clock fields collapsed to seconds,
plus the attached `tzinfo` as a fixed UTC offset in seconds (`none` for a
naive datetime). -/

structure PyDatetime where
  wall : Int
  tzinfo : Option Int
deriving DecidableEq

/-- Python `dt.replace(tzinfo=tz)`: same clock fields, new tzinfo. -/

def datetime_replace_tzinfo (d : PyDatetime) (tz : Option Int) : PyDatetime :=
  { d with tzinfo := tz }

/-- Python `datetime.timezone(datetime.timedelta(hours=h))`: the constructor
raises `ValueError` unless the offset is strictly between -24 and +24 hours;
otherwise it is the fixed offset of `3600 * h` seconds. -/

def datetime_timezone_of_hours (h : Int) : Except PyError Int :=
  if -86400 < 3600 * h ∧ 3600 * h < 86400 then Except.ok (3600 * h)
  else Except.error PyError.valueError

/-- The pydantic `DataResponse` model of `client.py` (vendor aliases
`AtsSerialNum`, `Longitude`, `Latitude`, `DateYearAndJulian`, ...).  The
serial and timestamp are mandatory; coordinates carry a `None` default; the
remaining vendor fields are loosely typed pass-through values. -/

structure DataResponse where
  ats_serial_num : String
  longitude : Option Rat
  latitude : Option Rat
  date_year_and_julian : PyDatetime
  num_sats : Option String
  hdop : Option String
  fix_time : Option String
  dimension : Option String
  activity : Option String
  temperature : Option String
  mortality : Option Bool
  low_batt_voltage : Option Bool
deriving DecidableEq

/-- A loosely typed vendor field value kept in the `additional` dict. -/

inductive PyLiteral
  | s (v : String)
  | b (v : Bool)
deriving DecidableEq

/-- One key of `vehicle.dict()` retained in `additional` when not `None`. -/

def opt_field (k : String) : Option PyLiteral → List (String × PyLiteral)
  | none => []
  | some x => [(k, x)]

/-- The `additional` dict of `filter_and_transform`: every `vehicle.dict()`
entry outside `main_data = [ats_serial_num, date_year_and_julian, latitude,
longitude]` whose value is not `None`, in the model's field order. -/

def data_response_additional (v : DataResponse) : List (String × PyLiteral) :=
  opt_field "num_sats" (v.num_sats.map PyLiteral.s) ++
  opt_field "hdop" (v.hdop.map PyLiteral.s) ++
  opt_field "fix_time" (v.fix_time.map PyLiteral.s) ++
  opt_field "dimension" (v.dimension.map PyLiteral.s) ++
  opt_field "activity" (v.activity.map PyLiteral.s) ++
  opt_field "temperature" (v.temperature.map PyLiteral.s) ++
  opt_field "mortality" (v.mortality.map PyLiteral.b) ++
  opt_field "low_batt_voltage" (v.low_batt_voltage.map PyLiteral.b)

/-- One observation record produced by `filter_and_transform` for the Sensors
API: the dict literal of `handlers.py` with `location` flattened to its two
keys. -/

structure Observation where
  source : String
  source_name : String
  type : String
  recorded_at : PyDatetime
  location_lat : Option Rat
  location_lon : Option Rat
  additional : List (String × PyLiteral)
deriving DecidableEq

/-- The diagnostic of `filter_and_transform` for an invalid offset: the
`logger.error` message naming the device and the bad value. -/

def gmt_offset_invalid_msg (serial_num : String) (gmt_offset : Int) : String :=
  "GMT offset invalid for device '" ++ serial_num ++ "' value '"
    ++ toString gmt_offset ++ "'"

/-- The body of the `for vehicle in vehicles` loop: build the fixed-offset
timezone (which can raise `ValueError`), reinterpret the naive timestamp at
it, and emit the observation dict. -/

def transform_vehicle (gmt_offset : Int) (vehicle : DataResponse) :
    Except PyError Observation :=
  match datetime_timezone_of_hours gmt_offset with
  | Except.error e => Except.error e
  | Except.ok tz =>
    Except.ok
      { source := vehicle.ats_serial_num
        source_name := vehicle.ats_serial_num
        type := "tracking-device"
        recorded_at := datetime_replace_tzinfo vehicle.date_year_and_julian (some tz)
        location_lat := vehicle.latitude
        location_lon := vehicle.longitude
        additional := data_response_additional vehicle }

/-- Source `filter_and_transform(serial_num, vehicles, gmt_offset, integration_id,
action_id)` of `handlers.py`.  The offset arrives as a Python dynamic value
that may be `None` (`gmt_offsets.get(serial_num, 0)` returns a stored `None`
verbatim): `abs(None)` raises `TypeError` before anything else.  An integer
offset with `|offset| > 24` is logged once — the returned `List String` is
the log — and coerced to 0; the loop then transforms each vehicle, raising
out of the function if the timezone constructor raises. -/

def filter_and_transform (serial_num : String) (vehicles : List DataResponse)
    (gmt_offset : Option Int) (integration_id action_id : String) :
    Except PyError (List String × List Observation) :=
  match gmt_offset with
  | none => Except.error PyError.typeError
  | some g =>
    let checked : List String × Int :=
      if |g| > 24 then ([gmt_offset_invalid_msg serial_num g], 0) else ([], g)
    match vehicles.mapM (transform_vehicle checked.2) with
    | Except.error e => Except.error e
    | Except.ok transformed_data => Except.ok (checked.1, transformed_data)

/-- A location record with every optional vendor field absent, used as a
concrete probe input. -/

def sampleVehicle : DataResponse :=
  { ats_serial_num := "052A", longitude := some 10, latitude := some 5,
    date_year_and_julian := ⟨1000, none⟩, num_sats := none, hdop := none,
    fix_time := none, dimension := none, activity := none, temperature := none,
    mortality := none, low_batt_voltage := none }

/-- Claim C3 (code bug at the boundary): the guard treats `|offset| = 24` as
valid — only `|offset| > 24` is coerced to 0 — but Python's
`datetime.timezone` requires an offset strictly smaller than 24 hours, so at
offset 24 the claimed reinterpretation is a `ValueError` crash instead.  For
contrast, offset 25 is coerced to 0 with exactly one diagnostic naming the
device and the value, and offset 23 yields the record's clock fields with the
fixed +23h tzinfo, as claimed. -/

inductive BadXmlError
  | xmlSyntax
  | missingDataSet
  | validation
deriving DecidableEq

/-- The value under the `Table` key. -/

inductive XmlTable (Row : Type)
  | list (rows : List Row)
  | notList

/-- The value under the `NewDataSet` key: an empty dict is falsy and takes
the no-data branch. -/

inductive NewDataSetVal (Row : Type)
  | empty
  | nonEmpty (table : Option (XmlTable Row))

/-- The value under the `diffgr:diffgram` key. -/

structure DiffgramVal (Row : Type) where
  newDataSet : Option (NewDataSetVal Row)

/-- The value under the `DataSet` key. -/

structure DataSetVal (Row : Type) where
  diffgram : Option (DiffgramVal Row)

/-- A well-formed parsed document. -/

structure XmlDoc (Row : Type) where
  dataSet : Option (DataSetVal Row)

/-- The outcome of fetching an endpoint and running `xmltodict.parse`. -/

inductive EndpointResponse (Row : Type)
  | malformed
  | parsed (doc : XmlDoc Row)

/-- Rows under the `Table` key, after `data.get("Table", [])` and the
pre-validator that turns a non-list into the empty list. -/

def table_rows {Row : Type} : Option (XmlTable Row) → List Row
  | none => []
  | some (XmlTable.list rs) => rs
  | some XmlTable.notList => []

/-- The row list a structurally valid document holds (empty on every falsy
branch). -/

def raw_rows_of {Row : Type} (ds : DataSetVal Row) : List Row :=
  match ds.diffgram.bind (fun dg => dg.newDataSet) with
  | none => []
  | some NewDataSetVal.empty => []
  | some (NewDataSetVal.nonEmpty tableOpt) => table_rows tableOpt

/-- pydantic's validation of a list field: items are validated left to right
and the first failing item fails the whole model. -/

def validate_rows {α β : Type} (f : α → Except BadXmlError β) :
    List α → Except BadXmlError (List β)
  | [] => Except.ok []
  | r :: rest =>
    match f r with
    | Except.error e => Except.error e
    | Except.ok v =>
      match validate_rows f rest with
      | Except.error e => Except.error e
      | Except.ok vs => Except.ok (v :: vs)

/-- A raw `Table` row of the data endpoint, before pydantic validation: the
mandatory fields may be absent, the timestamp may be present but unparseable
(`some none`), coordinates may be present out of range. -/

structure RawDataRow where
  ats_serial_num : Option String
  longitude : Option Rat
  latitude : Option Rat
  date_year_and_julian : Option (Option PyDatetime)
  num_sats : Option String
  hdop : Option String
  fix_time : Option String
  dimension : Option String
  activity : Option String
  temperature : Option String
  mortality : Option Bool
  low_batt_voltage : Option Bool
deriving DecidableEq

/-- pydantic bounds check on an optional numeric field: a present value
outside `[lo, hi]` is a `ValidationError`. -/

def check_bounds (lo hi : Rat) : Option Rat → Except BadXmlError (Option Rat)
  | none => Except.ok none
  | some v =>
    if lo ≤ v ∧ v ≤ hi then Except.ok (some v)
    else Except.error BadXmlError.validation

/-- pydantic validation of one `DataResponse` row: the serial and a parseable
timestamp are mandatory, longitude must lie in [-180, 360] and latitude in
[-90, 90] when present; everything else passes through verbatim. -/

def validate_data_row (r : RawDataRow) : Except BadXmlError DataResponse :=
  match r.ats_serial_num, r.date_year_and_julian with
  | some serial, some (some ts) =>
    match check_bounds (-180) 360 r.longitude, check_bounds (-90) 90 r.latitude with
    | Except.ok lon, Except.ok lat =>
      Except.ok
        { ats_serial_num := serial
          longitude := lon
          latitude := lat
          date_year_and_julian := ts
          num_sats := r.num_sats
          hdop := r.hdop
          fix_time := r.fix_time
          dimension := r.dimension
          activity := r.activity
          temperature := r.temperature
          mortality := r.mortality
          low_batt_voltage := r.low_batt_voltage }
    | Except.error e, _ => Except.error e
    | _, Except.error e => Except.error e
  | _, _ => Except.error BadXmlError.validation

/-- A raw `Table` row of the transmissions endpoint. -/

structure RawTransmissionsRow where
  date_sent : Option (Option Int)
  collar_serial_num : Option String
  number_fixes : Option Int
  batt_voltage : Option Rat
  mortality : Option String
  break_off : Option String
  sat_errors : Option String
  year_base : Option String
  day_base : Option String
  gmt_offset : Option Int
  low_batt_voltage : Option Bool
deriving DecidableEq

/-- pydantic validation of one `TransmissionsResponse` row: a parseable
`DateSent` and a `CollarSerialNum` are mandatory. -/

def validate_transmissions_row (r : RawTransmissionsRow) :
    Except BadXmlError TransmissionsResponse :=
  match r.date_sent, r.collar_serial_num with
  | some (some d), some serial =>
    Except.ok ⟨d, serial, r.number_fixes, r.batt_voltage, r.mortality,
      r.break_off, r.sat_errors, r.year_base, r.day_base, r.gmt_offset,
      r.low_batt_voltage⟩
  | _, _ => Except.error BadXmlError.validation

/-- The shared skeleton of the two endpoint handlers: a parse failure and a
missing `DataSet` key raise; a falsy envelope yields no rows without running
validation; a truthy envelope extracts the `Table` rows and validates them. -/

def parse_endpoint_response {Row Out : Type}
    (validate : Row → Except BadXmlError Out) (resp : EndpointResponse Row) :
    Except BadXmlError (List Out) :=
  match resp with
  | EndpointResponse.malformed => Except.error BadXmlError.xmlSyntax
  | EndpointResponse.parsed doc =>
    match doc.dataSet with
    | none => Except.error BadXmlError.missingDataSet
    | some ds =>
      match ds.diffgram.bind (fun dg => dg.newDataSet) with
      | none => Except.ok []
      | some NewDataSetVal.empty => Except.ok []
      | some (NewDataSetVal.nonEmpty tableOpt) =>
        validate_rows validate (table_rows tableOpt)

/-- Distinct serials in first-occurrence order.  The source iterates a Python
`set` of serials, whose order is unspecified; the grouping is determinised
here to first occurrence. -/

def dedup_first (l : List String) : List String :=
  l.foldl (fun acc x => if x ∈ acc then acc else acc ++ [x]) []

/-- The `response_per_device` grouping of `get_data_endpoint_response`: one
entry per distinct serial, each holding the vehicle's data points in input
order. -/

def group_by_serial (vehicles : List DataResponse) :
    List (String × List DataResponse) :=
  (dedup_first (vehicles.map (fun v => v.ats_serial_num))).map
    (fun serial => (serial, vehicles.filter (fun p => p.ats_serial_num == serial)))

/-- Source `get_data_endpoint_response` of `client.py`, from the `xmltodict.parse`
outcome on: validated rows grouped by device serial. -/

def get_data_endpoint_response (resp : EndpointResponse RawDataRow) :
    Except BadXmlError (List (String × List DataResponse)) :=
  match parse_endpoint_response validate_data_row resp with
  | Except.error e => Except.error e
  | Except.ok vehicles => Except.ok (group_by_serial vehicles)

/-- Source `get_transmissions_endpoint_response` of `client.py`.  The source's falsy
branch returns the empty dict literal `{}`; it is modelled as the empty
transmission list, the empty collection of the result type. -/

def get_transmissions_endpoint_response (resp : EndpointResponse RawTransmissionsRow) :
    Except BadXmlError (List TransmissionsResponse) :=
  parse_endpoint_response validate_transmissions_row resp

def badDataRow : RawDataRow :=
  ⟨none, none, none, none, none, none, none, none, none, none, none, none⟩

/-- A raw transmissions row with every field absent: fails validation. -/

def badTransRow : RawTransmissionsRow :=
  ⟨none, none, none, none, none, none, none, none, none, none, none⟩

/-- Witness for claim C5: each guarded branch exercised at a concrete
document — a missing `DataSet` key, an empty diffgram envelope, and a
one-bad-row table on each endpoint. -/

inductive PyVal
  | str (s : String)
  | transmissionsList (v : List TransmissionsResponse)
  | deviceGrouping (v : List (String × List DataResponse))
deriving DecidableEq

/-- The `PENDING_FILES` group name of `handlers.py`. -/

def PENDING_FILES : String := "ats_pending_files"

/-- One `file_storage.upload_file(...)` call. -/

structure UploadCall where
  integration_id : String
  local_file_path : String
  destination_blob_name : String
  metadata : List (String × String)
deriving DecidableEq

/-- The outcome of a successful pull run: the returned counter dict plus the
externally observable effects. -/

structure PullRunResult where
  observations_extracted : Nat
  tmp_writes : List (String × PyVal)
  uploads : List UploadCall
  group_adds : List (String × List String)
deriving DecidableEq

/-- An exception escaping `action_pull_observations`. -/

inductive PullError
  | badXml (e : BadXmlError)
  | typeError
deriving DecidableEq

/-- Python's text-mode `f.write(x)`: a `TypeError` unless `x` is a `str`. -/

def python_file_write : PyVal → Except PullError Unit
  | PyVal.str _ => Except.ok ()
  | PyVal.transmissionsList _ => Except.error PullError.typeError
  | PyVal.deviceGrouping _ => Except.error PullError.typeError

/-- Source `action_pull_observations(integration, action_config)`: fetch and
parse the transmissions endpoint, write the value called
`transmissions_raw_xml` (actually the parsed client return) to a timestamped
tmp file and upload it tagged with the integration id and vendor username;
then the same for the data endpoint with a `status: pending` metadata tag,
and register the data-points file name in the `PENDING_FILES` group.  The
counter `observations_extracted` is initialised to 0 and returned unchanged. -/

def action_pull_observations
    (file_write : PyVal → Except PullError Unit)
    (integration_id username timestamp : String)
    (transmissions_response : EndpointResponse RawTransmissionsRow)
    (data_response : EndpointResponse RawDataRow) :
    Except PullError PullRunResult :=
  match get_transmissions_endpoint_response transmissions_response with
  | Except.error e => Except.error (PullError.badXml e)
  | Except.ok transmissions_raw_xml =>
    let transmissions_file_name :=
      timestamp ++ "_" ++ integration_id ++ "_transmissions.xml"
    match file_write (PyVal.transmissionsList transmissions_raw_xml) with
    | Except.error e => Except.error e
    | Except.ok _ =>
      let upload1 : UploadCall :=
        { integration_id := integration_id
          local_file_path := "/tmp/" ++ transmissions_file_name
          destination_blob_name := transmissions_file_name
          metadata := [("integration_id", integration_id),
                       ("ats_username", username)] }
      let data_points_file_name :=
        timestamp ++ "_" ++ integration_id ++ "_data_points.xml"
      match get_data_endpoint_response data_response with
      | Except.error e => Except.error (PullError.badXml e)
      | Except.ok data_points_raw_xml =>
        match file_write (PyVal.deviceGrouping data_points_raw_xml) with
        | Except.error e => Except.error e
        | Except.ok _ =>
          let upload2 : UploadCall :=
            { integration_id := integration_id
              local_file_path := "/tmp/" ++ data_points_file_name
              destination_blob_name := data_points_file_name
              metadata := [("integration_id", integration_id),
                           ("ats_username", username),
                           ("status", "pending")] }
          Except.ok
            { observations_extracted := 0
              tmp_writes := [(transmissions_file_name,
                  PyVal.transmissionsList transmissions_raw_xml),
                (data_points_file_name,
                  PyVal.deviceGrouping data_points_raw_xml)]
              uploads := [upload1, upload2]
              group_adds := [(PENDING_FILES, [data_points_file_name])] }

/-- Claim C7 (code bug): what the code hands to the text-mode file write is
the parsed return of the client call — a list of pydantic models or a
grouping dict — never the raw XML text it fetched, so with Python's real
write semantics the write raises `TypeError` and no pull run can succeed at
all, let alone persist both payloads byte-for-byte; the registration of the
data-points file as pending sits below the failing write. -/

def samplePullResult : PullRunResult :=
  { observations_extracted := 0
    tmp_writes := [("t0_itg_transmissions.xml", PyVal.transmissionsList []),
      ("t0_itg_data_points.xml", PyVal.deviceGrouping [])]
    uploads := [
      { integration_id := "itg"
        local_file_path := "/tmp/t0_itg_transmissions.xml"
        destination_blob_name := "t0_itg_transmissions.xml"
        metadata := [("integration_id", "itg"), ("ats_username", "user")] },
      { integration_id := "itg"
        local_file_path := "/tmp/t0_itg_data_points.xml"
        destination_blob_name := "t0_itg_data_points.xml"
        metadata := [("integration_id", "itg"), ("ats_username", "user"),
                     ("status", "pending")] }]
    group_adds := [(PENDING_FILES, ["t0_itg_data_points.xml"])] }

/-- Witness for claim C10: a concrete successful run returning the zero
counter. -/

inductive FileStatus
  | pending
  | in_progress
  | processed
deriving DecidableEq

/-- Wire value of a lifecycle state. -/

def FileStatus.value : FileStatus → String
  | FileStatus.pending => "pending"
  | FileStatus.in_progress => "in_progress"
  | FileStatus.processed => "processed"

/-- Modelled from the spec: the three disjoint membership sets of the staging
state machine, keyed by filename and scoped to one integration. -/

structure FileGroups where
  pending : List String
  in_progress : List String
  processed : List String
deriving DecidableEq

/-- Modelled from the spec: removal of a filename from every set (the source
side of a move). -/

def FileGroups.remove (g : FileGroups) (f : String) : FileGroups :=
  { pending := g.pending.filter (fun x => x ≠ f)
    in_progress := g.in_progress.filter (fun x => x ≠ f)
    processed := g.processed.filter (fun x => x ≠ f) }

/-- Modelled from the spec: addition of a filename to the set of a target
state. -/

def FileGroups.add_to (g : FileGroups) (st : FileStatus) (f : String) : FileGroups :=
  match st with
  | FileStatus.pending => { g with pending := g.pending ++ [f] }
  | FileStatus.in_progress => { g with in_progress := g.in_progress ++ [f] }
  | FileStatus.processed => { g with processed := g.processed ++ [f] }

/-- Modelled from the spec: result dict of `action_set_file_status` together
with the externally observable effects — the final membership sets and the
metadata updates pushed to the blob store. -/

structure SetFileStatusResult where
  file_status : String
  message : String
  groups : FileGroups
  metadata_updates : List (String × String)
deriving DecidableEq

/-- Modelled from the spec: `action_set_file_status` (`setStatus` of section
4.3).  A file found in one of the three sets is moved to the target state's
set, unless the underlying move raises — `move_raises` models the shared
store raising — in which case the call reports state pending with a generic
message and propagates nothing.  A file found in no set is registered into
Pending (not the requested target), the blob metadata is set to pending, and
the result says the file was not found.  Result strings follow
`test_files.py`. -/

def action_set_file_status (groups : FileGroups)
    (integration_id filename : String) (target : FileStatus)
    (move_raises : Bool) : SetFileStatusResult :=
  if filename ∈ groups.pending ∨ filename ∈ groups.in_progress ∨
      filename ∈ groups.processed then
    if move_raises then
      { file_status := FileStatus.value FileStatus.pending
        message := "Error setting file status"
        groups := groups
        metadata_updates := [] }
    else
      { file_status := target.value
        message := "File status for '" ++ filename ++ "' in integration '"
          ++ integration_id ++ "' set to '" ++ target.value ++ "'."
        groups := FileGroups.add_to (FileGroups.remove groups filename) target filename
        metadata_updates := [] }
  else
    { file_status := "Not found"
      message := "File '" ++ filename
        ++ "' not found in any group. Moving file to PENDING status."
      groups := { groups with pending := groups.pending ++ [filename] }
      metadata_updates := [(filename, FileStatus.value FileStatus.pending)] }

/-- Claim C6, settled against the spec-modelled `action_set_file_status`: a
filename in none of the three sets is registered into Pending — not into the
requested target — with the metadata store updated to pending and a result
reporting the file was not found and was defaulted to pending; and when the
underlying move raises, the call returns file_status "pending" with the
generic message "Error setting file status" instead of propagating. -/

theorem getLast?_getD_cons (a x : Int) (l : List Int) :
    ((a :: l).getLast?).getD x = (l.getLast?).getD a := by
  cases l with
  | nil => simp
  | cons b bs =>
    rw [List.getLast?_cons_cons]
    obtain ⟨y, hy⟩ := Option.isSome_iff_exists.mp
      (List.getLast?_isSome.mpr (List.cons_ne_nil b bs))
    simp [hy]

theorem sorted_getLast?_max :
    ∀ {s : List Int}, s.Sorted (fun a b => a ≤ b) → ∀ {m : Int},
      s.getLast? = some m → m ∈ s ∧ ∀ x ∈ s, x ≤ m := by
  intro s
  induction s with
  | nil => intro _ m hm; simp at hm
  | cons a tail ih =>
    intro hs m hm
    rcases List.sorted_cons.mp hs with ⟨ha, htail⟩
    cases tail with
    | nil =>
      rw [List.getLast?_singleton] at hm
      cases hm
      exact ⟨List.mem_singleton_self a, by simp⟩
    | cons b bs =>
      rw [List.getLast?_cons_cons] at hm
      obtain ⟨hmem, hbound⟩ := ih htail hm
      refine ⟨List.mem_cons_of_mem a hmem, ?_⟩
      intro x hx
      rcases List.mem_cons.mp hx with rfl | hx
      · exact ha m hmem
      · exact hbound x hx

theorem sorted_find?_smallestGE :
    ∀ {s : List Int}, s.Sorted (fun a b => a ≤ b) → ∀ {t d : Int},
      s.find? (fun x => decide (t ≤ x)) = some d →
      d ∈ s ∧ t ≤ d ∧ ∀ y ∈ s, t ≤ y → d ≤ y := by
  intro s
  induction s with
  | nil => intro _ t d hd; simp at hd
  | cons a tail ih =>
    intro hs t d hd
    rcases List.sorted_cons.mp hs with ⟨ha, htail⟩
    rw [List.find?_cons] at hd
    by_cases hta : t ≤ a
    · simp only [decide_eq_true hta] at hd
      cases hd
      refine ⟨List.mem_cons_self a tail, hta, ?_⟩
      intro y hy _
      rcases List.mem_cons.mp hy with rfl | hy
      · exact le_refl y
      · exact ha y hy
    · simp only [decide_eq_false hta] at hd
      obtain ⟨hmem, htd, hmin⟩ := ih htail hd
      refine ⟨List.mem_cons_of_mem a hmem, htd, ?_⟩
      intro y hy hty
      rcases List.mem_cons.mp hy with rfl | hy
      · exact absurd hty hta
      · exact hmin y hy hty

/-- Over a sorted date list, the `for` loop of `closest_transmission` computes
exactly the first-date-at-or-after-target pick of the specification, with the
distance taken as whole floor days. -/

theorem scan_dates_eq_spec_pick (t : Int) :
    ∀ (s : List Int) (prev : Int), s.Sorted (fun a b => a ≤ b) →
      scan_dates t s prev = spec_pick days_abs t s prev := by
  intro s
  induction s with
  | nil => intro prev _; rfl
  | cons d rest ih =>
    intro prev hs
    rcases List.sorted_cons.mp hs with ⟨hd, hrest⟩
    by_cases htd : t ≤ d
    · have hfilter : (d :: rest).filter (fun x => decide (x < t)) = [] := by
        rw [List.filter_eq_nil_iff]
        intro x hx
        rcases List.mem_cons.mp hx with rfl | hx
        · simpa using not_lt.mpr htd
        · simpa using not_lt.mpr (le_trans htd (hd x hx))
      simp [scan_dates, spec_pick, List.find?_cons, decide_eq_true htd, htd, hfilter]
    · have hfilter : (d :: rest).filter (fun x => decide (x < t))
          = d :: rest.filter (fun x => decide (x < t)) := by
        simp [List.filter_cons, not_le.mp htd]
      have hrhs : spec_pick days_abs t (d :: rest) prev = spec_pick days_abs t rest d := by
        simp only [spec_pick, List.find?_cons, decide_eq_false htd, hfilter,
          getLast?_getD_cons]
      rw [hrhs]
      simp only [scan_dates, if_neg htd]
      exact ih d hrest

theorem find_by_date_mem {ts : List TransmissionsResponse} {x : Int}
    (hx : x ∈ trans_dates ts) :
    ∃ r, find_by_date ts x = some r ∧ r ∈ ts ∧ r.date_sent = x := by
  obtain ⟨t0, ht0, hdate⟩ := List.mem_map.mp hx
  have hsome : (ts.find? (fun t => t.date_sent == x)).isSome := by
    rw [List.find?_isSome]
    exact ⟨t0, ht0, by simp [hdate]⟩
  obtain ⟨r, hr⟩ := Option.isSome_iff_exists.mp hsome
  refine ⟨r, hr, List.mem_of_find?_eq_some hr, ?_⟩
  simpa using List.find?_some hr

theorem sorted_dates_sorted (ts : List TransmissionsResponse) :
    (sorted_dates ts).Sorted (fun a b => a ≤ b) :=
  List.sorted_insertionSort _ _

theorem sorted_dates_perm (ts : List TransmissionsResponse) :
    (sorted_dates ts).Perm (trans_dates ts) :=
  List.perm_insertionSort _ _

/-- The source function agrees everywhere with the specification's algorithm
once the distance is read as Python's whole-day `timedelta.days` value. -/

theorem closest_transmission_eq_days_pick (ts : List TransmissionsResponse) (t : Int) :
    closest_transmission ts t = findNearestTransmission_days ts t := by
  cases h : (sorted_dates ts).getLast? with
  | none => simp [closest_transmission, findNearestTransmission_days, h]
  | some last =>
    simp only [closest_transmission, findNearestTransmission_days, h]
    rw [scan_dates_eq_spec_pick t (sorted_dates ts) last (sorted_dates_sorted ts)]

/-- Full case analysis of `closest_transmission` on a non-empty input: the
returned transmission comes from the input list and its date is the smallest
date at or after the target, or the largest date before it, or (only when
every date is at or after the target) the maximum date at a floor-day distance
no larger than the minimum date's. -/

theorem closest_transmission_spec (ts : List TransmissionsResponse) (t : Int)
    (hne : ts ≠ []) :
    ∃ r, closest_transmission ts t = some r ∧ r ∈ ts ∧
      (isSmallestGE (trans_dates ts) t r.date_sent ∨
       isLargestLT (trans_dates ts) t r.date_sent ∨
       (isMaxOf (trans_dates ts) r.date_sent ∧ (∀ y ∈ trans_dates ts, t ≤ y) ∧
        ∃ dm, isMinOf (trans_dates ts) dm ∧
          days_abs r.date_sent t ≤ days_abs dm t)) := by
  have hperm := sorted_dates_perm ts
  have hsorted := sorted_dates_sorted ts
  have hmemiff : ∀ x : Int, x ∈ sorted_dates ts ↔ x ∈ trans_dates ts :=
    fun x => hperm.mem_iff
  have hlne : trans_dates ts ≠ [] := by
    intro h
    exact hne (List.map_eq_nil_iff.mp h)
  have hsne : sorted_dates ts ≠ [] := by
    intro h
    apply hlne
    have h2 := hperm
    rw [h] at h2
    exact (List.Perm.nil_eq h2).symm
  obtain ⟨mx, hlast⟩ := Option.isSome_iff_exists.mp (List.getLast?_isSome.mpr hsne)
  obtain ⟨hmxmem, hmxmax⟩ := sorted_getLast?_max hsorted hlast
  simp only [closest_transmission, hlast]
  rw [scan_dates_eq_spec_pick t (sorted_dates ts) mx hsorted]
  cases hfind : (sorted_dates ts).find? (fun d => decide (t ≤ d)) with
  | none =>
    have hall : ∀ y ∈ sorted_dates ts, y < t := by
      intro y hy
      have := List.find?_eq_none.mp hfind y hy
      simpa using this
    obtain ⟨r, hr, hrmem, hrdate⟩ := find_by_date_mem ((hmemiff mx).mp hmxmem)
    refine ⟨r, by simp [spec_pick, hfind, hr], hrmem, Or.inr (Or.inl ?_)⟩
    refine ⟨hrdate ▸ (hmemiff mx).mp hmxmem, hrdate ▸ hall mx hmxmem, ?_⟩
    intro y hy _
    exact hrdate ▸ hmxmax y ((hmemiff y).mpr hy)
  | some d =>
    obtain ⟨hdmem, htd, hdmin⟩ := sorted_find?_smallestGE hsorted hfind
    have hdGE : ∀ x : Int, x = d →
        isSmallestGE (trans_dates ts) t x := by
      rintro x rfl
      exact ⟨(hmemiff x).mp hdmem, htd, fun y hy hty => hdmin y ((hmemiff y).mpr hy) hty⟩
    cases hq : ((sorted_dates ts).filter (fun x => decide (x < t))).getLast? with
    | some q =>
      have hfsorted := hsorted.filter (fun x => decide (x < t))
      obtain ⟨hqmem, hqmax⟩ := sorted_getLast?_max hfsorted hq
      have hqs : q ∈ sorted_dates ts ∧ q < t := by
        have := List.mem_filter.mp hqmem
        exact ⟨this.1, by simpa using this.2⟩
      have hqLT : isLargestLT (trans_dates ts) t q := by
        refine ⟨(hmemiff q).mp hqs.1, hqs.2, ?_⟩
        intro y hy hyt
        exact hqmax y (List.mem_filter.mpr ⟨(hmemiff y).mpr hy, by simpa using hyt⟩)
      by_cases hcmp : days_abs d t < days_abs q t
      · obtain ⟨r, hr, hrmem, hrdate⟩ := find_by_date_mem ((hmemiff d).mp hdmem)
        exact ⟨r, by simp [spec_pick, hfind, hq, if_pos hcmp, hr], hrmem,
          Or.inl (hrdate ▸ hdGE d rfl)⟩
      · obtain ⟨r, hr, hrmem, hrdate⟩ := find_by_date_mem ((hmemiff q).mp hqs.1)
        exact ⟨r, by simp [spec_pick, hfind, hq, if_neg hcmp, hr], hrmem,
          Or.inr (Or.inl (hrdate ▸ hqLT))⟩
    | none =>
      have hfilnil : (sorted_dates ts).filter (fun x => decide (x < t)) = [] :=
        List.getLast?_eq_none_iff.mp hq
      have hallge : ∀ y ∈ sorted_dates ts, t ≤ y := by
        intro y hy
        by_contra hyt
        have : y ∈ (sorted_dates ts).filter (fun x => decide (x < t)) :=
          List.mem_filter.mpr ⟨hy, by simpa using not_le.mp hyt⟩
        rw [hfilnil] at this
        simp at this
      by_cases hcmp : days_abs d t < days_abs mx t
      · obtain ⟨r, hr, hrmem, hrdate⟩ := find_by_date_mem ((hmemiff d).mp hdmem)
        exact ⟨r, by simp [spec_pick, hfind, hq, if_pos hcmp, hr], hrmem,
          Or.inl (hrdate ▸ hdGE d rfl)⟩
      · obtain ⟨r, hr, hrmem, hrdate⟩ := find_by_date_mem ((hmemiff mx).mp hmxmem)
        refine ⟨r, by simp [spec_pick, hfind, hq, if_neg hcmp, hr], hrmem,
          Or.inr (Or.inr ⟨?_, ?_, d, ?_, ?_⟩)⟩
        · exact ⟨hrdate ▸ (hmemiff mx).mp hmxmem,
            fun y hy => hrdate ▸ hmxmax y ((hmemiff y).mpr hy)⟩
        · intro y hy
          exact hallge y ((hmemiff y).mpr hy)
        · exact ⟨(hmemiff d).mp hdmem,
            fun y hy => hdmin y ((hmemiff y).mpr hy) (hallge y ((hmemiff y).mpr hy))⟩
        · rw [hrdate]
          exact not_lt.mp hcmp

theorem closest_transmission_counterexample_exact_distance :
    closest_transmission [mkTrans 0 "A", mkTrans 233280 "B"] 103680
        = some (mkTrans 233280 "B") ∧
    findNearestTransmission [mkTrans 0 "A", mkTrans 233280 "B"] 103680
        = some (mkTrans 0 "A") ∧
    closest_transmission [mkTrans 0 "A", mkTrans 233280 "B"] 103680
        ≠ findNearestTransmission [mkTrans 0 "A", mkTrans 233280 "B"] 103680 := by
  decide

/-- Claim C1 (amended): for every non-empty transmission list and every target
date, `closest_transmission` follows exactly the claimed algorithm — sorted
ascending dates, `previousDate` initialised to the maximum, first date at or
after the target compared against `previousDate`, maximum date as fallback —
with the distance taken as Python's `timedelta.days` value, the absolute value
of the floor division of the signed difference by one day, instead of the
exact absolute difference. -/

theorem closest_transmission_follows_floor_days_algorithm
    (ts : List TransmissionsResponse) (t : Int) (hne : ts ≠ []) :
    closest_transmission ts t = findNearestTransmission_days ts t :=
  closest_transmission_eq_days_pick ts t

/-- Witness for the amended claim C1 at a concrete non-empty input. -/

theorem closest_transmission_follows_floor_days_algorithm_witness :
    ([mkTrans 0 "A", mkTrans 233280 "B"] : List TransmissionsResponse) ≠ [] ∧
    closest_transmission [mkTrans 0 "A", mkTrans 233280 "B"] 103680
      = findNearestTransmission_days [mkTrans 0 "A", mkTrans 233280 "B"] 103680 :=
  ⟨by decide, closest_transmission_follows_floor_days_algorithm
      [mkTrans 0 "A", mkTrans 233280 "B"] 103680 (by decide)⟩

/-- Claim C2 (counterexample): with transmissions dated 0s and 43200s (half a
day) and target 0 — at the minimum date, so within the claim's precondition —
the code returns the transmission dated 43200, which is neither the smallest
date at or after the target (that is 0) nor the largest date before it (there
is none): the whole-day distance comparison 0 < 0 fails and the fallback to
the initial `previousDate` (the maximum) fires. -/

theorem closest_transmission_counterexample_third_date :
    ([mkTrans 0 "A", mkTrans 43200 "B"] : List TransmissionsResponse) ≠ [] ∧
    (∃ y ∈ trans_dates [mkTrans 0 "A", mkTrans 43200 "B"], y ≤ 0) ∧
    closest_transmission [mkTrans 0 "A", mkTrans 43200 "B"] 0
      = some (mkTrans 43200 "B") ∧
    ¬ isSmallestGE (trans_dates [mkTrans 0 "A", mkTrans 43200 "B"]) 0 43200 ∧
    ¬ isLargestLT (trans_dates [mkTrans 0 "A", mkTrans 43200 "B"]) 0 43200 := by
  decide

/-- Claim C2 (amended): for a non-empty transmission list and a target date at
or after the minimum transmission date, the returned transmission's date is
the smallest date at or after the target, or the largest date before it, or —
the one further case, possible only when the target equals the minimum date
and the maximum date is less than one day after it — the maximum date. -/

theorem closest_transmission_candidate_dates (ts : List TransmissionsResponse)
    (t : Int) (hne : ts ≠ []) (hmin : ∃ y ∈ trans_dates ts, y ≤ t) :
    ∃ r, closest_transmission ts t = some r ∧
      (isSmallestGE (trans_dates ts) t r.date_sent ∨
       isLargestLT (trans_dates ts) t r.date_sent ∨
       (isMaxOf (trans_dates ts) r.date_sent ∧ isMinOf (trans_dates ts) t ∧
        r.date_sent - t < 86400)) := by
  obtain ⟨r, hr, hrmem, hcase⟩ := closest_transmission_spec ts t hne
  refine ⟨r, hr, ?_⟩
  rcases hcase with h | h | ⟨hmax, hall, dm, hdm, hle⟩
  · exact Or.inl h
  · exact Or.inr (Or.inl h)
  · right; right
    obtain ⟨y0, hy0, hy0le⟩ := hmin
    have hdmt : dm = t :=
      le_antisymm (le_trans (hdm.2 y0 hy0) hy0le) (hall dm hdm.1)
    have htr : t ≤ r.date_sent := hall r.date_sent hmax.1
    have hdist : days_abs r.date_sent t = 0 := by
      have h0 : days_abs t t = 0 := by simp [days_abs, Int.fdiv]
      have := hdmt ▸ hle
      rw [h0] at this
      exact le_antisymm this (abs_nonneg _)
    have hfdiv : Int.fdiv (r.date_sent - t) 86400 = 0 := abs_eq_zero.mp hdist
    have hid := Int.fdiv_add_fmod (r.date_sent - t) 86400
    have hlt : Int.fmod (r.date_sent - t) 86400 < 86400 :=
      Int.fmod_lt_of_pos _ (by norm_num)
    refine ⟨hmax, hdmt ▸ hdm, ?_⟩
    omega

/-- Witness for the amended claim C2 at a concrete non-empty input with the
target after the minimum date. -/

theorem closest_transmission_candidate_dates_witness :
    ([mkTrans 0 "A", mkTrans 200000 "B"] : List TransmissionsResponse) ≠ [] ∧
    (∃ y ∈ trans_dates [mkTrans 0 "A", mkTrans 200000 "B"], y ≤ 100000) ∧
    (∃ r, closest_transmission [mkTrans 0 "A", mkTrans 200000 "B"] 100000 = some r ∧
      (isSmallestGE (trans_dates [mkTrans 0 "A", mkTrans 200000 "B"]) 100000 r.date_sent ∨
       isLargestLT (trans_dates [mkTrans 0 "A", mkTrans 200000 "B"]) 100000 r.date_sent ∨
       (isMaxOf (trans_dates [mkTrans 0 "A", mkTrans 200000 "B"]) r.date_sent ∧
        isMinOf (trans_dates [mkTrans 0 "A", mkTrans 200000 "B"]) 100000 ∧
        r.date_sent - 100000 < 86400))) :=
  ⟨by decide, by decide, closest_transmission_candidate_dates
      [mkTrans 0 "A", mkTrans 200000 "B"] 100000 (by decide) (by decide)⟩

/-- Claim C9: on the empty transmission list `closest_transmission` fails (the
source raises `IndexError` at `sorted_list[-1]`, modelled as `none`) rather
than returning a transmission; on every non-empty list it returns some
transmission of the input list. -/

theorem closest_transmission_partiality (ts : List TransmissionsResponse)
    (t u : Int) (hne : ts ≠ []) :
    closest_transmission [] u = none ∧
    ∃ r, closest_transmission ts t = some r ∧ r ∈ ts := by
  refine ⟨rfl, ?_⟩
  obtain ⟨r, h1, h2, -⟩ := closest_transmission_spec ts t hne
  exact ⟨r, h1, h2⟩

/-- Witness for claim C9 at a concrete non-empty input. -/

theorem closest_transmission_partiality_witness :
    ([mkTrans 5 "A"] : List TransmissionsResponse) ≠ [] ∧
    (closest_transmission [] 7 = none ∧
     ∃ r, closest_transmission [mkTrans 5 "A"] 3 = some r ∧ r ∈ [mkTrans 5 "A"]) :=
  ⟨by decide, closest_transmission_partiality [mkTrans 5 "A"] 3 7 (by decide)⟩

/-! Time Correction Engine: `extract_gmt_offsets` and `filter_and_transform`
of `handlers.py`.  A Python dict with string keys is an association list with
distinct keys; insertion order is preserved, as in Python. -/

/-- Python `d[k]` lookup outcome: `some v` when the key is present with stored
value `v` (itself an `Option Int`, since a stored GMT offset may be `None`). -/

theorem dict_get?_setdefault (d : List (String × Option Int)) (k : String)
    (v : Option Int) (x : String) :
    dict_get? (dict_setdefault d k v) x =
      match dict_get? d x with
      | some w => some w
      | none => if k = x then some v else none := by
  unfold dict_setdefault
  by_cases h : d.any (fun p => p.1 == k)
  · rw [if_pos h]
    cases hx : dict_get? d x with
    | some w => simp [hx]
    | none =>
      have hk : (dict_get? d k).isSome := by
        obtain ⟨p, hp, hpk⟩ := List.any_eq_true.mp h
        have hf : (List.find? (fun p => p.1 == k) d).isSome :=
          List.find?_isSome.mpr ⟨p, hp, hpk⟩
        obtain ⟨q, hq⟩ := Option.isSome_iff_exists.mp hf
        simp [dict_get?, hq]
      have hkx : k ≠ x := by
        intro he
        rw [he, hx] at hk
        simp at hk
      simp [hx, hkx]
  · rw [if_neg h]
    show dict_get? (d ++ [(k, v)]) x = _
    unfold dict_get?
    rw [List.find?_append]
    cases hf : List.find? (fun p => p.1 == x) d with
    | some p => simp [hf]
    | none =>
      by_cases hkx : k = x
      · have hb : (k == x) = true := by simp [hkx]
        simp [hf, List.find?, hkx, hb]
      · have hb : (k == x) = false := by simp [hkx]
        simp [hf, List.find?, hkx, hb]

theorem dict_get?_foldl_setdefault (x : String) :
    ∀ (ts : List TransmissionsResponse) (acc : List (String × Option Int)),
      dict_get? (ts.foldl (fun a item =>
          dict_setdefault a item.collar_serial_num item.gmt_offset) acc) x =
        match dict_get? acc x with
        | some w => some w
        | none => (ts.find? (fun i => i.collar_serial_num == x)).map
            (fun i => i.gmt_offset) := by
  intro ts
  induction ts with
  | nil => intro acc; cases h : dict_get? acc x <;> simp [h]
  | cons item rest ih =>
    intro acc
    rw [List.foldl_cons, ih, dict_get?_setdefault, List.find?_cons]
    by_cases hK : item.collar_serial_num = x
    · have hb : (item.collar_serial_num == x) = true := by simp [hK]
      cases h : dict_get? acc x <;> simp [h, hK, hb]
    · have hb : (item.collar_serial_num == x) = false := by simp [hK]
      cases h : dict_get? acc x <;> simp [h, hK, hb]

/-- The content of claim C4 as one equation: looking a device up in the
offsets dict is looking up its first transmission in input order. -/

theorem dict_get?_extract_gmt_offsets (ts : List TransmissionsResponse)
    (integration_id serial : String) :
    dict_get? (extract_gmt_offsets ts integration_id) serial
      = (ts.find? (fun i => i.collar_serial_num == serial)).map
          (fun i => i.gmt_offset) := by
  cases ts with
  | nil => rfl
  | cons item rest =>
    show dict_get? ((item :: rest).foldl _ []) serial = _
    rw [dict_get?_foldl_setdefault]
    rfl

/-- Claim C4: for every transmission list, `extract_gmt_offsets` maps each
device serial to the GMT offset of the first transmission for that device in
input order — later transmissions for the same device are ignored, because
`setdefault` inserts only absent keys — and for the empty list it returns the
empty dict. -/

theorem extract_gmt_offsets_first_transmission_wins
    (ts : List TransmissionsResponse) (integration_id serial : String) :
    dict_get? (extract_gmt_offsets ts integration_id) serial
      = (ts.find? (fun i => i.collar_serial_num == serial)).map
          (fun i => i.gmt_offset)
    ∧ extract_gmt_offsets [] integration_id = [] :=
  ⟨dict_get?_extract_gmt_offsets ts integration_id serial, rfl⟩

/-- Python exceptions the embedded functions can raise. -/

theorem filter_and_transform_offset24_raises :
    filter_and_transform "052A" [sampleVehicle] (some 24) "itg" "pull_observations"
      = Except.error PyError.valueError ∧
    filter_and_transform "052A" [sampleVehicle] (some 25) "itg" "pull_observations"
      = Except.ok ([gmt_offset_invalid_msg "052A" 25],
          [{ source := "052A", source_name := "052A", type := "tracking-device",
             recorded_at := ⟨1000, some 0⟩, location_lat := some 5,
             location_lon := some 10, additional := [] }]) ∧
    filter_and_transform "052A" [sampleVehicle] (some 23) "itg" "pull_observations"
      = Except.ok ([],
          [{ source := "052A", source_name := "052A", type := "tracking-device",
             recorded_at := ⟨1000, some 82800⟩, location_lat := some 5,
             location_lon := some 10, additional := [] }]) := by
  refine ⟨?_, ?_, ?_⟩ <;> rfl

/-- Claim C8: when the first transmission for a device carries no GMT offset,
the offsets dict maps the device to `None` — not 0 — and later transmissions
for the device never replace it; `gmt_offsets.get(serial, 0)` then hands that
`None` on, and `filter_and_transform` applied to a `None` offset raises
`TypeError` at the `abs(gmt_offset) > 24` guard, so the pipeline's correction
step is only well-defined when every derived offset is an integer. -/

theorem extract_gmt_offsets_none_offset_unsafe
    (ts : List TransmissionsResponse) (integration_id serial : String)
    (tr : TransmissionsResponse)
    (hfirst : ts.find? (fun i => i.collar_serial_num == serial) = some tr)
    (hnone : tr.gmt_offset = none) :
    dict_get? (extract_gmt_offsets ts integration_id) serial = some none ∧
    py_dict_get_zero (extract_gmt_offsets ts integration_id) serial = none ∧
    ∀ (sn : String) (vehicles : List DataResponse) (iid aid : String),
      filter_and_transform sn vehicles none iid aid
        = Except.error PyError.typeError := by
  have hmain := dict_get?_extract_gmt_offsets ts integration_id serial
  rw [hfirst] at hmain
  refine ⟨?_, ?_, fun sn vehicles iid aid => rfl⟩
  · rw [hmain]
    simp [hnone]
  · unfold py_dict_get_zero
    rw [hmain]
    simp [hnone]

/-- Witness for claim C8: a device whose first transmission has no offset and
whose second transmission carries offset 5 is still mapped to `None`. -/

theorem extract_gmt_offsets_none_offset_unsafe_witness :
    [mkTrans 1 "D", { mkTrans 2 "D" with gmt_offset := some 5 }].find?
        (fun i => i.collar_serial_num == "D") = some (mkTrans 1 "D") ∧
    (mkTrans 1 "D").gmt_offset = none ∧
    (dict_get? (extract_gmt_offsets
        [mkTrans 1 "D", { mkTrans 2 "D" with gmt_offset := some 5 }] "itg") "D"
      = some none ∧
     py_dict_get_zero (extract_gmt_offsets
        [mkTrans 1 "D", { mkTrans 2 "D" with gmt_offset := some 5 }] "itg") "D"
      = none ∧
     ∀ (sn : String) (vehicles : List DataResponse) (iid aid : String),
       filter_and_transform sn vehicles none iid aid
         = Except.error PyError.typeError) :=
  ⟨by decide, by decide,
    extract_gmt_offsets_none_offset_unsafe
      [mkTrans 1 "D", { mkTrans 2 "D" with gmt_offset := some 5 }] "itg" "D"
      (mkTrans 1 "D") (by decide) (by decide)⟩

/-! Vendor Response Parser: `get_data_endpoint_response` and
`get_transmissions_endpoint_response` of `client.py`, modelled after the HTTP
fetch.  `xmltodict.parse` either raises (`malformed`) or yields the nested
dict, of which only the parts the source touches are modelled:
`parsed_xml["DataSet"]` (a `KeyError` when absent), the optional
`diffgr:diffgram` and `NewDataSet` levels (an absent level becomes `{}`,
which is falsy), and the optional `Table` value, which is a list of rows or —
as xmltodict renders a single row — a bare dict that the pydantic
pre-validator normalises to the empty list. -/

/-- The raised `PullObservationsBadXMLException`, tagged by which step failed
(the message strings of the source carry the integration id and username). -/

theorem parse_endpoint_response_parsed {Row Out : Type}
    (validate : Row → Except BadXmlError Out) (doc : XmlDoc Row)
    (ds : DataSetVal Row) (h : doc.dataSet = some ds) :
    parse_endpoint_response validate (EndpointResponse.parsed doc)
      = validate_rows validate (raw_rows_of ds) := by
  cases doc with
  | mk dsOpt =>
    have h2 : dsOpt = some ds := h
    subst h2
    show (match ds.diffgram.bind (fun dg => dg.newDataSet) with
      | none => Except.ok []
      | some NewDataSetVal.empty => Except.ok []
      | some (NewDataSetVal.nonEmpty tableOpt) =>
        validate_rows validate (table_rows tableOpt))
      = validate_rows validate (raw_rows_of ds)
    unfold raw_rows_of
    cases hnd : ds.diffgram.bind (fun dg => dg.newDataSet) with
    | none => rfl
    | some nds => cases nds <;> rfl

theorem validate_rows_error_of_mem {α β : Type} {f : α → Except BadXmlError β}
    {rows : List α} {r : α} {e : BadXmlError} (hr : r ∈ rows)
    (he : f r = Except.error e) :
    ∃ e', validate_rows f rows = Except.error e' := by
  induction rows with
  | nil => simp at hr
  | cons a rest ih =>
    cases hfa : f a with
    | error ea => exact ⟨ea, by simp [validate_rows, hfa]⟩
    | ok b =>
      rcases List.mem_cons.mp hr with rfl | hr2
      · rw [hfa] at he
        exact absurd he (by simp)
      · obtain ⟨e', he'⟩ := ih hr2
        exact ⟨e', by simp [validate_rows, hfa, he']⟩

/-- Claim C5: parsing fails with the malformed-response exception when the
XML is not well-formed or the `DataSet` wrapper is absent; an
empty-but-structurally-valid result set is not an error and yields the empty
grouping (locations) / empty collection (transmissions); and one row failing
field validation turns the entire response into an error instead of skipping
the row. -/

theorem parser_error_policy :
    (get_data_endpoint_response EndpointResponse.malformed
       = Except.error BadXmlError.xmlSyntax) ∧
    (get_transmissions_endpoint_response EndpointResponse.malformed
       = Except.error BadXmlError.xmlSyntax) ∧
    (∀ doc : XmlDoc RawDataRow, doc.dataSet = none →
       get_data_endpoint_response (EndpointResponse.parsed doc)
         = Except.error BadXmlError.missingDataSet) ∧
    (∀ doc : XmlDoc RawTransmissionsRow, doc.dataSet = none →
       get_transmissions_endpoint_response (EndpointResponse.parsed doc)
         = Except.error BadXmlError.missingDataSet) ∧
    (∀ (doc : XmlDoc RawDataRow) (ds : DataSetVal RawDataRow),
       doc.dataSet = some ds → raw_rows_of ds = [] →
       get_data_endpoint_response (EndpointResponse.parsed doc) = Except.ok []) ∧
    (∀ (doc : XmlDoc RawTransmissionsRow) (ds : DataSetVal RawTransmissionsRow),
       doc.dataSet = some ds → raw_rows_of ds = [] →
       get_transmissions_endpoint_response (EndpointResponse.parsed doc)
         = Except.ok []) ∧
    (∀ (doc : XmlDoc RawDataRow) (ds : DataSetVal RawDataRow) (r : RawDataRow)
       (e : BadXmlError), doc.dataSet = some ds → r ∈ raw_rows_of ds →
       validate_data_row r = Except.error e →
       ∃ e', get_data_endpoint_response (EndpointResponse.parsed doc)
         = Except.error e') ∧
    (∀ (doc : XmlDoc RawTransmissionsRow) (ds : DataSetVal RawTransmissionsRow)
       (r : RawTransmissionsRow) (e : BadXmlError), doc.dataSet = some ds →
       r ∈ raw_rows_of ds → validate_transmissions_row r = Except.error e →
       ∃ e', get_transmissions_endpoint_response (EndpointResponse.parsed doc)
         = Except.error e') := by
  refine ⟨rfl, rfl, ?_, ?_, ?_, ?_, ?_, ?_⟩
  · intro doc h
    simp [get_data_endpoint_response, parse_endpoint_response, h]
  · intro doc h
    simp [get_transmissions_endpoint_response, parse_endpoint_response, h]
  · intro doc ds hds hrows
    simp [get_data_endpoint_response,
      parse_endpoint_response_parsed validate_data_row doc ds hds, hrows,
      validate_rows, group_by_serial, dedup_first]
  · intro doc ds hds hrows
    simp [get_transmissions_endpoint_response,
      parse_endpoint_response_parsed validate_transmissions_row doc ds hds, hrows,
      validate_rows]
  · intro doc ds r e hds hr he
    obtain ⟨e', he'⟩ := validate_rows_error_of_mem hr he
    exact ⟨e', by
      simp [get_data_endpoint_response,
        parse_endpoint_response_parsed validate_data_row doc ds hds, he']⟩
  · intro doc ds r e hds hr he
    obtain ⟨e', he'⟩ := validate_rows_error_of_mem hr he
    exact ⟨e', by
      simp [get_transmissions_endpoint_response,
        parse_endpoint_response_parsed validate_transmissions_row doc ds hds, he']⟩

/-- A raw data row with every field absent: fails validation. -/

theorem parser_error_policy_witness :
    (get_data_endpoint_response (EndpointResponse.parsed ⟨none⟩)
       = Except.error BadXmlError.missingDataSet) ∧
    (get_transmissions_endpoint_response (EndpointResponse.parsed ⟨none⟩)
       = Except.error BadXmlError.missingDataSet) ∧
    (get_data_endpoint_response (EndpointResponse.parsed ⟨some ⟨none⟩⟩)
       = Except.ok []) ∧
    (get_transmissions_endpoint_response (EndpointResponse.parsed ⟨some ⟨none⟩⟩)
       = Except.ok []) ∧
    (∃ e', get_data_endpoint_response (EndpointResponse.parsed
        ⟨some ⟨some ⟨some (NewDataSetVal.nonEmpty
          (some (XmlTable.list [badDataRow])))⟩⟩⟩) = Except.error e') ∧
    (∃ e', get_transmissions_endpoint_response (EndpointResponse.parsed
        ⟨some ⟨some ⟨some (NewDataSetVal.nonEmpty
          (some (XmlTable.list [badTransRow])))⟩⟩⟩) = Except.error e') :=
  ⟨parser_error_policy.2.2.1 ⟨none⟩ rfl,
   parser_error_policy.2.2.2.1 ⟨none⟩ rfl,
   parser_error_policy.2.2.2.2.1 ⟨some ⟨none⟩⟩ ⟨none⟩ rfl rfl,
   parser_error_policy.2.2.2.2.2.1 ⟨some ⟨none⟩⟩ ⟨none⟩ rfl rfl,
   parser_error_policy.2.2.2.2.2.2.1
     ⟨some ⟨some ⟨some (NewDataSetVal.nonEmpty (some (XmlTable.list [badDataRow])))⟩⟩⟩
     ⟨some ⟨some (NewDataSetVal.nonEmpty (some (XmlTable.list [badDataRow])))⟩⟩
     badDataRow BadXmlError.validation rfl (by simp [raw_rows_of, table_rows]) (by rfl),
   parser_error_policy.2.2.2.2.2.2.2
     ⟨some ⟨some ⟨some (NewDataSetVal.nonEmpty (some (XmlTable.list [badTransRow])))⟩⟩⟩
     ⟨some ⟨some (NewDataSetVal.nonEmpty (some (XmlTable.list [badTransRow])))⟩⟩
     badTransRow BadXmlError.validation rfl (by simp [raw_rows_of, table_rows]) (by rfl)⟩

/-! Ingestion pipeline: `action_pull_observations` of `handlers.py`.  The
HTTP/auth layer and the retry wrapper are abstracted: the two endpoint fetch
outcomes arrive as already-parsed `EndpointResponse` values, and the
`aiofiles` text-mode write is an injected effect whose real Python semantics
is `python_file_write`.  The uploads and group additions the run performs are
returned in the result for inspection. -/

/-- A Python dynamic value as handed to `f.write(...)`: the source passes the
return value of the client call, which is a parsed transmissions list or a
per-device grouping (never the raw response text). -/

theorem action_pull_observations_never_persists_raw_xml :
    (∀ (integration_id username timestamp : String)
       (tr : EndpointResponse RawTransmissionsRow)
       (dr : EndpointResponse RawDataRow) (r : PullRunResult),
       action_pull_observations python_file_write integration_id username
         timestamp tr dr ≠ Except.ok r) ∧
    action_pull_observations python_file_write "itg" "user" "t0"
        (EndpointResponse.parsed ⟨some ⟨none⟩⟩)
        (EndpointResponse.parsed ⟨some ⟨none⟩⟩)
      = Except.error PullError.typeError := by
  constructor
  · intro integration_id username timestamp tr dr r
    unfold action_pull_observations
    cases h1 : get_transmissions_endpoint_response tr with
    | error e => simp
    | ok l => simp [python_file_write]
  · rfl

/-- Claim C10: whatever the injected write effect and whatever the endpoints
returned, whenever `action_pull_observations` succeeds its
`observations_extracted` counter is 0: it is never incremented. -/

theorem action_pull_observations_extracts_zero
    (file_write : PyVal → Except PullError Unit)
    (integration_id username timestamp : String)
    (tr : EndpointResponse RawTransmissionsRow)
    (dr : EndpointResponse RawDataRow) (r : PullRunResult)
    (h : action_pull_observations file_write integration_id username timestamp
        tr dr = Except.ok r) :
    r.observations_extracted = 0 := by
  simp only [action_pull_observations] at h
  split at h
  · exact absurd h (by simp)
  · split at h
    · exact absurd h (by simp)
    · split at h
      · exact absurd h (by simp)
      · split at h
        · exact absurd h (by simp)
        · rw [Except.ok.injEq] at h
          subst h
          rfl

/-- The run of `action_pull_observations` under a permissive write effect on
two structurally valid empty documents. -/

theorem action_pull_observations_extracts_zero_witness :
    action_pull_observations (fun _ => Except.ok ()) "itg" "user" "t0"
        (EndpointResponse.parsed ⟨some ⟨none⟩⟩)
        (EndpointResponse.parsed ⟨some ⟨none⟩⟩)
      = Except.ok samplePullResult ∧
    samplePullResult.observations_extracted = 0 :=
  ⟨by rfl,
   action_pull_observations_extracts_zero (fun _ => Except.ok ()) "itg" "user"
     "t0" (EndpointResponse.parsed ⟨some ⟨none⟩⟩)
     (EndpointResponse.parsed ⟨some ⟨none⟩⟩) samplePullResult (by rfl)⟩

/-! Staging File State Machine actions.  The module defining
`action_get_file_status`, `action_set_file_status` and `action_reprocess_file`
is not among the repository's provided source files — only `test_files.py`,
which exercises it, is — so the operation claim C6 names is modelled from the
specification (its section 4.3) and the expectations recorded in the tests. -/

/-- Modelled from the spec: the file lifecycle states (the source's
`configurations.FileStatus`, whose module is not among the provided files)
with the wire values the result dicts carry. -/

theorem action_set_file_status_policy (groups : FileGroups)
    (integration_id filename : String) (target : FileStatus) (move_raises : Bool)
    (hnf : filename ∉ groups.pending) (hni : filename ∉ groups.in_progress)
    (hnp : filename ∉ groups.processed) :
    (action_set_file_status groups integration_id filename target move_raises
      = { file_status := "Not found"
          message := "File '" ++ filename
            ++ "' not found in any group. Moving file to PENDING status."
          groups := { groups with pending := groups.pending ++ [filename] }
          metadata_updates := [(filename, "pending")] }) ∧
    (∀ (g2 : FileGroups) (f2 : String),
       (f2 ∈ g2.pending ∨ f2 ∈ g2.in_progress ∨ f2 ∈ g2.processed) →
       (action_set_file_status g2 integration_id f2 target true).file_status
           = "pending" ∧
       (action_set_file_status g2 integration_id f2 target true).message
           = "Error setting file status") := by
  constructor
  · unfold action_set_file_status
    rw [if_neg (by simp [hnf, hni, hnp])]
    rfl
  · intro g2 f2 hmem
    unfold action_set_file_status
    rw [if_pos hmem]
    exact ⟨rfl, rfl⟩

/-- Witness for claim C6 at the tests' concrete inputs: the untracked
`non_existent_file.xml` is defaulted to pending, and a raising move on the
tracked `test_file.xml` yields the generic pending failure result. -/

theorem action_set_file_status_policy_witness :
    (action_set_file_status ⟨["a.xml"], [], []⟩ "itg" "non_existent_file.xml"
        FileStatus.in_progress false
      = { file_status := "Not found"
          message := "File 'non_existent_file.xml' not found in any group. Moving file to PENDING status."
          groups := ⟨["a.xml", "non_existent_file.xml"], [], []⟩
          metadata_updates := [("non_existent_file.xml", "pending")] }) ∧
    (action_set_file_status ⟨["test_file.xml"], [], []⟩ "itg" "test_file.xml"
        FileStatus.in_progress true).file_status = "pending" ∧
    (action_set_file_status ⟨["test_file.xml"], [], []⟩ "itg" "test_file.xml"
        FileStatus.in_progress true).message = "Error setting file status" := by
  have h := action_set_file_status_policy ⟨["a.xml"], [], []⟩ "itg"
    "non_existent_file.xml" FileStatus.in_progress false (by decide) (by decide)
    (by decide)
  have h2 := h.2 ⟨["test_file.xml"], [], []⟩ "test_file.xml"
    (Or.inl (by decide))
  exact ⟨h.1, h2.1, h2.2⟩

end ATS
